import Mathlib

/-!
Verification development for the MediaFire SDK client
(signed-request protocol and upload pipeline).

The TypeScript source is shallowly embedded below.  JavaScript numbers are
IEEE doubles; every arithmetic fact proved here is stated on ranges where
double arithmetic is exact (below 2^53), so plain `Nat` models it faithfully.
Host-provided library routines (the MD5 digest, the ICU collator backing
`String.prototype.localeCompare`) are not part of the repository; they enter
the embedding as explicit function parameters or as clearly marked models.
-/

/-! ## Decimal numerals: models of JS `String(n)` and `parseInt(s, 10)` -/

/-- Decimal digit to its ASCII character. -/
def digitToChar (d : Nat) : Char :=
  if d = 0 then '0' else if d = 1 then '1' else if d = 2 then '2'
  else if d = 3 then '3' else if d = 4 then '4' else if d = 5 then '5'
  else if d = 6 then '6' else if d = 7 then '7' else if d = 8 then '8'
  else '9'

/-- ASCII digit character back to its value; `none` on a non-digit. -/
def charToDigit (c : Char) : Option Nat :=
  if c = '0' then some 0 else if c = '1' then some 1 else if c = '2' then some 2
  else if c = '3' then some 3 else if c = '4' then some 4 else if c = '5' then some 5
  else if c = '6' then some 6 else if c = '7' then some 7 else if c = '8' then some 8
  else if c = '9' then some 9 else none

theorem charToDigit_digitToChar (d : Nat) (h : d < 10) :
    charToDigit (digitToChar d) = some d := by
  interval_cases d <;> rfl

/-- Value of a digit string read most-significant first. -/
def decodeDigits (cs : List Char) : Nat :=
  cs.foldl (fun a c => 10 * a + (charToDigit c).getD 0) 0

/-- Model of JS `parseInt(s, 10)` on inputs without leading whitespace or
sign (the SDK only ever feeds it canonical numerals): value of the longest
digit prefix, `none` standing for `NaN` when no digit leads. -/
def parseIntDec (s : String) : Option Nat :=
  let ds := s.data.takeWhile (fun c => (charToDigit c).isSome)
  if ds.isEmpty then none else some (decodeDigits ds)

/-- Big-endian decimal digits of `n`, by fuel (`fuel ≥ n` suffices). -/
def toDecChars : Nat → Nat → List Char
  | 0, _ => []
  | fuel + 1, n => if n = 0 then [] else toDecChars fuel (n / 10) ++ [digitToChar (n % 10)]

/-- Model of JS `String(n)` for a non-negative integer. -/
def natToString (n : Nat) : String :=
  if n = 0 then "0" else String.mk (toDecChars (n + 1) n)

theorem mem_toDecChars_isDigit :
    ∀ fuel n c, c ∈ toDecChars fuel n → (charToDigit c).isSome = true := by
  intro fuel
  induction fuel with
  | zero => intro n c hc; simp [toDecChars] at hc
  | succ fuel ih =>
    intro n c hc
    by_cases hn : n = 0
    · simp [toDecChars, hn] at hc
    · simp only [toDecChars, if_neg hn, List.mem_append, List.mem_singleton] at hc
      rcases hc with hc | hc
      · exact ih _ _ hc
      · subst hc
        have h10 : n % 10 < 10 := Nat.mod_lt _ (by norm_num)
        rw [charToDigit_digitToChar _ h10]
        rfl

theorem decode_toDecChars :
    ∀ fuel n a, n ≤ fuel →
      List.foldl (fun a c => 10 * a + (charToDigit c).getD 0) a (toDecChars fuel n)
        = a * 10 ^ (toDecChars fuel n).length + n := by
  intro fuel
  induction fuel with
  | zero =>
    intro n a hn
    interval_cases n
    simp [toDecChars]
  | succ fuel ih =>
    intro n a hn
    by_cases hzero : n = 0
    · simp [toDecChars, hzero]
    · have hdiv : n / 10 ≤ fuel := by
        have h1 : n / 10 < n := Nat.div_lt_self (Nat.pos_of_ne_zero hzero) (by norm_num)
        omega
      have h10 : n % 10 < 10 := Nat.mod_lt _ (by norm_num)
      simp only [toDecChars, if_neg hzero, List.foldl_append, List.foldl_cons,
        List.foldl_nil, List.length_append, List.length_singleton]
      rw [ih _ a hdiv, charToDigit_digitToChar _ h10]
      have hmod : 10 * (n / 10) + n % 10 = n := by omega
      have hpow : 10 ^ ((toDecChars fuel (n / 10)).length + 1)
          = 10 ^ (toDecChars fuel (n / 10)).length * 10 := pow_succ 10 _
      simp only [Option.getD_some]
      rw [hpow]
      ring_nf
      omega

theorem takeWhile_all {p : Char → Bool} :
    ∀ l : List Char, (∀ c ∈ l, p c = true) → l.takeWhile p = l := by
  intro l
  induction l with
  | nil => intro _; rfl
  | cons x xs ih =>
    intro h
    have hx : p x = true := h x (List.mem_cons_self x xs)
    simp [List.takeWhile, hx, ih fun c hc => h c (List.mem_cons_of_mem x hc)]

/-- `parseInt` inverts `String(·)`: round-trip through decimal notation. -/
theorem parseIntDec_natToString (n : Nat) : parseIntDec (natToString n) = some n := by
  by_cases hzero : n = 0
  · subst hzero; rfl
  · have hchars : ∀ c ∈ toDecChars (n + 1) n, ((charToDigit c).isSome : Bool) = true :=
      fun c hc => mem_toDecChars_isDigit (n + 1) n c hc
    have htake : (toDecChars (n + 1) n).takeWhile (fun c => (charToDigit c).isSome)
        = toDecChars (n + 1) n := takeWhile_all _ hchars
    have hne : toDecChars (n + 1) n ≠ [] := by
      simp only [toDecChars, if_neg hzero]
      exact List.append_ne_nil_of_right_ne_nil _ (by simp)
    have hdecode : decodeDigits (toDecChars (n + 1) n) = n := by
      have := decode_toDecChars (n + 1) n 0 (Nat.le_succ n)
      simpa [decodeDigits] using this
    simp only [parseIntDec, natToString, if_neg hzero, htake]
    rw [if_neg (by simpa [List.isEmpty_iff] using hne)]
    rw [hdecode]

/-! ## SignatureEngine (src/auth.ts) -/

/-- Embedding of `regenerateSecretKey` (src/auth.ts):
`parseInt(currentKey, 10)`, multiply by 16807, reduce mod 2147483647,
stringify.  JS evaluates this on doubles; it is exact whenever the
intermediate product stays below 2^53, which holds on the documented
secret range [0, 2^31 − 2] (product < 2^45).  `parseInt` yielding `NaN`
propagates to the string "NaN", as in JS. -/
def regenerateSecretKey (currentKey : String) : String :=
  match parseIntDec currentKey with
  | some oldKey => natToString (oldKey * 16807 % 2147483647)
  | none => "NaN"

/-- JS string-or-default via `||`: the empty string is falsy. -/
def jsOr (o : Option String) (d : String) : String :=
  match o with
  | some s => if s = "" then d else s
  | none => d

/-- Embedding of `generateRequestSignature` (src/auth.ts).  The MD5 digest
is computed by the host crypto library, outside this repository; it enters
as the explicit parameter `md5Hex`, applied to the exact signature base the
source builds: `secretKeyMod ++ time ++ uri ++ "?" ++ query` with
`secretKeyMod = parseInt(secretKey, 10) % 256`. -/
def generateRequestSignature (md5Hex : String → String)
    (secretKey time uri query : String) : String :=
  match parseIntDec secretKey with
  | some n => md5Hex (natToString (n % 256) ++ time ++ uri ++ "?" ++ query)
  | none => md5Hex ("NaN" ++ time ++ uri ++ "?" ++ query)

/-- C2: for any secret in [0, 2^31 − 2] presented as its decimal string,
`regenerateSecretKey` returns the decimal string of
`(secret * 16807) mod (2^31 − 1)`; the intermediate product stays below
2^53, so JS double arithmetic computes it exactly; and the two concrete
spec vectors hold: rotating "1" gives "16807" and rotating "16807" gives
"282475249".  Being a plain function of its argument, it is pure and
deterministic. -/
theorem regenerateSecretKey_lcg_step :
    (∀ n : Nat, n ≤ 2 ^ 31 - 2 →
      regenerateSecretKey (natToString n) = natToString (n * 16807 % (2 ^ 31 - 1))
        ∧ n * 16807 < 2 ^ 53)
    ∧ regenerateSecretKey "1" = "16807"
    ∧ regenerateSecretKey "16807" = "282475249" := by
  refine ⟨fun n hn => ⟨?_, by omega⟩, by decide, ?_⟩
  · have h1 : (2 ^ 31 - 1 : Nat) = 2147483647 := by norm_num
    simp [regenerateSecretKey, parseIntDec_natToString, h1]
  · decide

/-- Witness for C2 at the concrete secret 3. -/
theorem regenerateSecretKey_lcg_step_witness :
    regenerateSecretKey (natToString 3) = natToString (3 * 16807 % (2 ^ 31 - 1)) :=
  (regenerateSecretKey_lcg_step.1 3 (by norm_num)).1

/-- C5: `generateRequestSignature` equals the digest of the concatenation
`(secret mod 256) ++ serverTime ++ uri ++ "?" ++ canonicalQuery`, for any
secret that parses to an integer below 2^53 (the range on which JS doubles
represent it exactly; session secrets are below 2^31), and it is
deterministic: equal inputs give equal digests. -/
theorem generateRequestSignature_base :
    ∀ (md5Hex : String → String) (s t u q : String) (n : Nat),
      parseIntDec s = some n → n < 2 ^ 53 →
      (generateRequestSignature md5Hex s t u q
          = md5Hex (natToString (n % 256) ++ t ++ u ++ "?" ++ q)
        ∧ ∀ s2 t2 u2 q2, s2 = s → t2 = t → u2 = u → q2 = q →
            generateRequestSignature md5Hex s2 t2 u2 q2
              = generateRequestSignature md5Hex s t u q) := by
  intro md5Hex s t u q n hparse _
  constructor
  · simp [generateRequestSignature, hparse]
  · intro s2 t2 u2 q2 hs ht hu hq
    rw [hs, ht, hu, hq]

/-- Witness for C5: concrete base string at secret "12345" (12345 mod 256 =
57), with the digest parameter instantiated to a concrete function. -/
theorem generateRequestSignature_base_witness :
    generateRequestSignature (fun b => b) "12345" "1700000000"
        "/api/1.3/user/get_info.php" "response_format=json"
      = (fun b => b) (natToString (12345 % 256) ++ "1700000000"
          ++ "/api/1.3/user/get_info.php" ++ "?" ++ "response_format=json") :=
  (generateRequestSignature_base (fun b => b) "12345" "1700000000"
    "/api/1.3/user/get_info.php" "response_format=json" 12345 (by decide)
    (by norm_num)).1

/-! ## Session state and the dispatcher envelope phase (src/api.ts) -/

/-- Embedding of `InternalSession` (src/api.ts). -/
structure InternalSession where
  sessionToken : String
  secretKey : String
  time : String
  email : String
deriving DecidableEq

/-- Embedding of `MediaFireError` (src/types.ts): message and optional
numeric API code (the raw response payload it also carries is dropped). -/
structure MFError where
  message : String
  code : Option Nat
deriving DecidableEq

/-- Envelope fields `apiCall` (src/api.ts) inspects after JSON parsing:
`data.response?.{result, error, message, new_key}`. -/
structure ApiEnvelope where
  result : Option String
  errorCode : Option Nat
  message : Option String
  new_key : Option String
deriving DecidableEq

instance instDecidableEqExcept {ε α : Type} [DecidableEq ε] [DecidableEq α] :
    DecidableEq (Except ε α) := fun x y =>
  match x, y with
  | Except.ok a, Except.ok b =>
    if h : a = b then isTrue (by rw [h])
    else isFalse (by intro hc; injection hc; contradiction)
  | Except.ok _, Except.error _ => isFalse (by intro hc; exact Except.noConfusion hc)
  | Except.error _, Except.ok _ => isFalse (by intro hc; exact Except.noConfusion hc)
  | Except.error a, Except.error b =>
    if h : a = b then isTrue (by rw [h])
    else isFalse (by intro hc; injection hc; contradiction)

/-- Concrete session used by the evaluation witnesses below. -/
def sampleSession : InternalSession :=
  { sessionToken := "tok", secretKey := "1", time := "1700000000", email := "u" }

/-- The single rotation mutation `session.secretKey =
regenerateSecretKey(session.secretKey)` (src/api.ts line 123), as a state
transformer.  In JS it is one synchronous statement — no `await` separates
the read of `session.secretKey` from the write — so with respect to the
event loop it is one atomic step. -/
def rotateStep (s : InternalSession) : InternalSession :=
  { s with secretKey := regenerateSecretKey s.secretKey }

/-- Embedding of the envelope-handling tail of `apiCall` (src/api.ts lines
112–126), the code that runs after a 2xx response parsed as JSON: first the
`result === 'Error'` check throws `MediaFireError` (so rotation below is
never reached on an error envelope), then `new_key === 'yes' && session`
applies exactly one `regenerateSecretKey` to the session's secret, then the
envelope is returned.  The session is threaded explicitly in place of the
in-place mutation. -/
def apiCallEnvelopePhase (env : ApiEnvelope) (session : Option InternalSession) :
    Option InternalSession × Except MFError ApiEnvelope :=
  if env.result = some "Error" then
    (session, Except.error ⟨jsOr env.message "Unknown MediaFire API error", env.errorCode⟩)
  else
    match session with
    | some s =>
      if env.new_key = some "yes" then (some (rotateStep s), Except.ok env)
      else (some s, Except.ok env)
    | none => (none, Except.ok env)

/-- C1 counterexample: an envelope with `result = "Error"` and
`new_key = "yes"` on an active session.  `apiCall` throws `ApiError`
*before* the rotation check, so the secret stays "1": zero rotations were
applied, not the exactly one the claim demands (`rotateSecret "1"` is
"16807"). -/
theorem apiCall_error_envelope_skips_rotation :
    (apiCallEnvelopePhase
        ⟨some "Error", some 104, some "Session token is invalid", some "yes"⟩
        (some ⟨"tok", "1", "1700000000", "user@example.com"⟩)).1
      ≠ some (rotateStep ⟨"tok", "1", "1700000000", "user@example.com"⟩)
    ∧ apiCallEnvelopePhase
        ⟨some "Error", some 104, some "Session token is invalid", some "yes"⟩
        (some ⟨"tok", "1", "1700000000", "user@example.com"⟩)
      = (some ⟨"tok", "1", "1700000000", "user@example.com"⟩,
          Except.error ⟨"Session token is invalid", some 104⟩)
    ∧ regenerateSecretKey "1" = "16807" := by
  refine ⟨?_, by decide, by decide⟩
  decide

/-- C1 as amended: when the parsed envelope carries `new_key = "yes"` and a
Session is active, exactly one `regenerateSecretKey` mutation is applied
before the call returns — but only when the envelope's `result` is not
"Error"; on an `"Error"` envelope `apiCall` throws `ApiError` first and
leaves the secret unrotated (zero rotations). -/
theorem apiCall_rotation_exactly_once_on_non_error :
    ∀ (env : ApiEnvelope) (s : InternalSession), env.new_key = some "yes" →
      (env.result ≠ some "Error" →
        apiCallEnvelopePhase env (some s) = (some (rotateStep s), Except.ok env))
      ∧ (env.result = some "Error" →
        apiCallEnvelopePhase env (some s)
          = (some s,
              Except.error ⟨jsOr env.message "Unknown MediaFire API error", env.errorCode⟩)) := by
  intro env s hkey
  constructor
  · intro herr
    simp [apiCallEnvelopePhase, herr, hkey]
  · intro herr
    simp [apiCallEnvelopePhase, herr]

/-- Witness for the amended C1 at a concrete success envelope and a
concrete error envelope. -/
theorem apiCall_rotation_exactly_once_on_non_error_witness :
    apiCallEnvelopePhase ⟨some "Success", none, none, some "yes"⟩
        (some ⟨"tok", "1", "1700000000", "user@example.com"⟩)
      = (some (rotateStep ⟨"tok", "1", "1700000000", "user@example.com"⟩),
          Except.ok ⟨some "Success", none, none, some "yes"⟩)
    ∧ apiCallEnvelopePhase ⟨some "Error", some 104, some "bad", some "yes"⟩
        (some ⟨"tok", "1", "1700000000", "user@example.com"⟩)
      = (some ⟨"tok", "1", "1700000000", "user@example.com"⟩,
          Except.error ⟨"bad", some 104⟩) :=
  ⟨(apiCall_rotation_exactly_once_on_non_error
      ⟨some "Success", none, none, some "yes"⟩
      ⟨"tok", "1", "1700000000", "user@example.com"⟩ rfl).1 (by decide),
    by
      have h := (apiCall_rotation_exactly_once_on_non_error
        ⟨some "Error", some 104, some "bad", some "yes"⟩
        ⟨"tok", "1", "1700000000", "user@example.com"⟩ rfl).2 rfl
      simpa [jsOr] using h⟩

/-- C3: completing N concurrent calls that each carry a rotation
instruction advances the secret by exactly N LCG steps, whatever the
completion order.  Each call's rotation is the single synchronous statement
embedded as `rotateStep` (atomic with respect to the JS event loop, since
no `await` separates its read from its write), so an execution is some
sequence of N such atomic steps; any such sequence equals
`rotateStep` iterated N times, and the secret equals `regenerateSecretKey`
iterated N times from the pre-call value. -/
theorem concurrent_rotations_advance_n_times :
    ∀ (l : List (InternalSession → InternalSession)) (s0 : InternalSession),
      (∀ g ∈ l, g = rotateStep) →
      (List.foldl (fun st g => g st) s0 l = rotateStep^[l.length] s0
        ∧ (List.foldl (fun st g => g st) s0 l).secretKey
            = regenerateSecretKey^[l.length] s0.secretKey) := by
  have hiter : ∀ (n : Nat) (s : InternalSession),
      (rotateStep^[n] s).secretKey = regenerateSecretKey^[n] s.secretKey := by
    intro n
    induction n with
    | zero => intro s; rfl
    | succ n ih =>
      intro s
      rw [Function.iterate_succ_apply, Function.iterate_succ_apply]
      exact ih (rotateStep s)
  intro l
  induction l with
  | nil => intro s0 _; exact ⟨rfl, rfl⟩
  | cons g gs ih =>
    intro s0 hall
    have hg : g = rotateStep := hall g (List.mem_cons_self g gs)
    have hgs : ∀ h ∈ gs, h = rotateStep := fun h hh => hall h (List.mem_cons_of_mem g hh)
    have hfold := ih (rotateStep s0) hgs
    constructor
    · simp only [List.foldl_cons, hg, List.length_cons]
      rw [hfold.1, ← Function.iterate_succ_apply]
    · simp only [List.foldl_cons, hg, List.length_cons]
      rw [hfold.1, ← Function.iterate_succ_apply, hiter]

/-- Witness for C3: two concurrent rotation-carrying calls on the seed "1"
advance it to rotateSecret(rotateSecret(1)) = 282475249. -/
theorem concurrent_rotations_advance_n_times_witness :
    List.foldl (fun st g => g st) sampleSession [rotateStep, rotateStep]
      = rotateStep^[2] sampleSession
    ∧ (List.foldl (fun st g => g st) sampleSession
        [rotateStep, rotateStep]).secretKey = "282475249" := by
  have h := concurrent_rotations_advance_n_times [rotateStep, rotateStep]
    sampleSession (by intro g hg; simp only [List.mem_cons,
      List.not_mem_nil, or_false, or_self] at hg; exact hg)
  refine ⟨h.1, ?_⟩
  rw [h.1]
  decide

/-! ## Login (src/client.ts, MediaFireClient.login) -/

/-- Envelope fields `login` (src/client.ts) consumes from
`user/get_session_token`: `data.response?.{result, message, error,
session_token, secret_key, time}`. -/
structure LoginEnvelope where
  result : Option String
  message : Option String
  errorCode : Option Nat
  session_token : Option String
  secret_key : Option String
  time : Option String
deriving DecidableEq

/-- Embedding of the response-handling tail of `MediaFireClient.login`
(src/client.ts lines 170–194): when `result` is not "Success" it throws
`MediaFireError(message || 'Authentication failed', error)` without touching
`this.session`; otherwise it assigns `this.session` a single fresh record
with all four fields (`session_token || ''`, `secret_key || ''`,
`time || ''`, and the caller's email) and returns a copy.  The field
`this.session` is threaded as `prev`. -/
def login (prev : Option InternalSession) (env : LoginEnvelope) (email : String) :
    Option InternalSession × Except MFError InternalSession :=
  if env.result = some "Success" then
    let s : InternalSession :=
      { sessionToken := (env.session_token).getD ""
        secretKey := (env.secret_key).getD ""
        time := (env.time).getD ""
        email := email }
    (some s, Except.ok s)
  else
    (prev, Except.error ⟨jsOr env.message "Authentication failed", env.errorCode⟩)

/-- C7: on a success envelope `login` replaces the whole Session in one
assignment, all four fields (token, secret, serverTime, identity) coming
from that one envelope plus the caller's email; on any non-success envelope
it raises `ApiError` and returns with the prior session — including the
no-session state — exactly as it was, never partially updated. -/
theorem login_atomic_replace_or_untouched :
    ∀ (prev : Option InternalSession) (env : LoginEnvelope) (email : String),
      (env.result = some "Success" →
        login prev env email
          = (some { sessionToken := (env.session_token).getD ""
                    secretKey := (env.secret_key).getD ""
                    time := (env.time).getD ""
                    email := email },
              Except.ok { sessionToken := (env.session_token).getD ""
                          secretKey := (env.secret_key).getD ""
                          time := (env.time).getD ""
                          email := email }))
      ∧ (env.result ≠ some "Success" →
        login prev env email
          = (prev, Except.error ⟨jsOr env.message "Authentication failed", env.errorCode⟩)) := by
  intro prev env email
  constructor
  · intro hs; simp [login, hs]
  · intro hs; simp [login, hs]

/-- Witness for C7: a concrete successful login and a concrete failed login
over a prior session. -/
theorem login_atomic_replace_or_untouched_witness :
    login (some sampleSession)
        ⟨some "Success", none, none, some "t2", some "77", some "1700000001"⟩ "a@b.c"
      = (some { sessionToken := "t2", secretKey := "77",
                time := "1700000001", email := "a@b.c" },
          Except.ok { sessionToken := "t2", secretKey := "77",
                      time := "1700000001", email := "a@b.c" })
    ∧ login (some sampleSession)
        ⟨some "Error", some "The Credentials you entered are invalid", some 107,
          none, none, none⟩ "a@b.c"
      = (some sampleSession,
          Except.error ⟨"The Credentials you entered are invalid", some 107⟩) := by
  constructor
  · have h := (login_atomic_replace_or_untouched (some sampleSession)
      ⟨some "Success", none, none, some "t2", some "77", some "1700000001"⟩ "a@b.c").1 rfl
    simpa using h
  · have h := (login_atomic_replace_or_untouched (some sampleSession)
      ⟨some "Error", some "The Credentials you entered are invalid", some 107,
        none, none, none⟩ "a@b.c").2 (by decide)
    simpa [jsOr] using h

/-! ## Module-level authentication guard (src/modules/(star).ts) -/

/-- The error every module method throws when no session is active:
`new Error('Not authenticated. Please call login() first.')`. -/
def authRequiredError : MFError :=
  ⟨"Not authenticated. Please call login() first.", none⟩

/-- Result of an SDK surface call together with the requests it actually
transmitted (each entry one wire request), so that "fails before signing or
transmitting" is visible in the model. -/
structure CallResult (α : Type) where
  requests : List String
  outcome : Except MFError α
deriving DecidableEq

/-- Embedding of the guard every module method starts with
(user.ts, files.ts, folders.ts, upload.ts — e.g. src/modules/upload.ts
lines 93–96): `const session = this.getSession(); if (!session) throw new
Error('Not authenticated. Please call login() first.')`; only with a
session in hand does the body build, sign and transmit a request. -/
def moduleCall {α : Type} (session : Option InternalSession)
    (body : InternalSession → CallResult α) : CallResult α :=
  match session with
  | none => { requests := [], outcome := Except.error authRequiredError }
  | some s => body s

/-- C6: with no active Session every module-surface call fails with the
AuthenticationRequired error having transmitted nothing (and hence signed
nothing); in particular after a failed login — which leaves the session
slot exactly as it was, here the no-session state — every subsequent call
fails fast this way instead of signing with absent material. -/
theorem no_session_fails_before_transmit :
    ∀ (α : Type) (body : InternalSession → CallResult α),
      moduleCall none body = { requests := [], outcome := Except.error authRequiredError }
      ∧ ∀ (env : LoginEnvelope) (email : String), env.result ≠ some "Success" →
          ((login none env email).1 = none
            ∧ moduleCall (login none env email).1 body
                = { requests := [], outcome := Except.error authRequiredError }) := by
  intro α body
  constructor
  · rfl
  · intro env email hfail
    have h : (login none env email).1 = none := by
      simp [login, hfail]
    exact ⟨h, by rw [h]; rfl⟩

/-- A concrete call body that would transmit one request, for the C6
witness. -/
def sampleBody : InternalSession → CallResult Nat :=
  fun _ => { requests := ["user/get_info"], outcome := Except.ok 7 }

/-- A concrete failed-login envelope, for the C6 witness. -/
def failedLoginEnv : LoginEnvelope :=
  ⟨some "Error", some "The Credentials you entered are invalid", some 107,
    none, none, none⟩

/-- Witness for C6: after a concrete failed login, a concrete call body
that would transmit a request is never reached. -/
theorem no_session_fails_before_transmit_witness :
    moduleCall none sampleBody
      = { requests := [], outcome := Except.error authRequiredError }
    ∧ (login none failedLoginEnv "a@b.c").1 = none
    ∧ moduleCall (login none failedLoginEnv "a@b.c").1 sampleBody
      = { requests := [], outcome := Except.error authRequiredError } := by
  have h := no_session_fails_before_transmit Nat sampleBody
  have h2 := h.2 failedLoginEnv "a@b.c" (by decide)
  exact ⟨h.1, h2.1, h2.2⟩

/-! ## Parameter canonicalization (src/utils.ts, sortParams) -/

/-- Stable insertion into a sorted list: `x` goes before the first `y` it
compares less-or-equal to, so earlier input elements stay before equal
later ones. -/
def insertBy {α : Type} (le : α → α → Bool) (x : α) : List α → List α
  | [] => [x]
  | y :: ys => if le x y then x :: y :: ys else y :: insertBy le x ys

/-- Stable insertion sort, the semantics ECMAScript guarantees for
`Array.prototype.sort` with a consistent comparator. -/
def sortBy {α : Type} (le : α → α → Bool) : List α → List α
  | [] => []
  | x :: xs => insertBy le x (sortBy le xs)

/-- Embedding of `sortParams` (src/utils.ts lines 464–467):
`[...params.entries()].sort((a, b) => a[0].localeCompare(b[0]))`, a stable
sort of the entry list keyed on the comparator's sign.  `localeCompare` is
supplied by the host (it depends on the process locale and ICU data), so it
enters as the explicit comparator parameter `cmp`. -/
def sortParams (cmp : String → String → Int) (ps : List (String × String)) :
    List (String × String) :=
  sortBy (fun a b => decide (cmp a.1 b.1 ≤ 0)) ps

/-- Byte-wise (code-point) lexicographic comparator, the locale-independent
ordering the specification requires. -/
def charsCmp : List Char → List Char → Int
  | [], [] => 0
  | [], _ :: _ => -1
  | _ :: _, [] => 1
  | a :: as, b :: bs =>
    if a.toNat < b.toNat then -1
    else if b.toNat < a.toNat then 1
    else charsCmp as bs

/-- Byte-wise comparison on strings. -/
def byteCompare (a b : String) : Int :=
  charsCmp a.data b.data

/-- ASCII case folding: the primary collation strength of the root locale
ignores letter case. -/
def asciiFold (n : Nat) : Nat :=
  if 65 ≤ n ∧ n ≤ 90 then n + 32 else n

/-- Primary-strength comparison: code points after case folding. -/
def primaryCmp : List Char → List Char → Int
  | [], [] => 0
  | [], _ :: _ => -1
  | _ :: _, [] => 1
  | a :: as, b :: bs =>
    if asciiFold a.toNat < asciiFold b.toNat then -1
    else if asciiFold b.toNat < asciiFold a.toNat then 1
    else primaryCmp as bs

/-- Model of the host collator behind `String.prototype.localeCompare` with
no arguments (Node ships full ICU; its root/default collation compares
case-insensitively at primary strength and sorts lowercase before uppercase
on ties), restricted to ASCII.  Not repository code: this stands in for the
locale-sensitive library routine the source delegates to. -/
def icuRootCompare (a b : String) : Int :=
  let p := primaryCmp a.data b.data
  if p = 0 then 0 - charsCmp a.data b.data else p

/-- C4, evaluated at the failing input: on the two-entry mapping
{"a": "1", "B": "2"} the source's comparator (the host's default collation,
which orders "a" before "B") and the byte-wise comparison the claim
requires (0x42 = "B" before 0x61 = "a") produce different canonical orders,
so `sortParams` is neither byte-wise nor locale-independent. -/
theorem sortParams_locale_sensitive :
    sortParams icuRootCompare [("a", "1"), ("B", "2")] = [("a", "1"), ("B", "2")]
    ∧ sortParams byteCompare [("a", "1"), ("B", "2")] = [("B", "2"), ("a", "1")]
    ∧ sortParams icuRootCompare [("a", "1"), ("B", "2")]
        ≠ sortParams byteCompare [("a", "1"), ("B", "2")] := by
  refine ⟨by decide, by decide, by decide⟩

/-! ## Upload polling (src/modules/upload.ts, UploadModule.pollUpload) -/

/-- Fields of `response.doupload` the poll loop inspects
(src/modules/upload.ts lines 193–202). -/
structure PollDoupload where
  result : Option String
  status : Option String
  quickkey : Option String
  filename : Option String
  size : Option String
  fileerror : Option String
deriving DecidableEq

/-- One parsed poll envelope (the payload `apiCall` returns for
`upload/poll_upload`). -/
structure PollResponse where
  doupload : Option PollDoupload
deriving DecidableEq

/-- JS truthiness of an optional string: absent and the empty string are
falsy, every other string is truthy. -/
def optTruthy : Option String → Bool
  | none => false
  | some s => !s.isEmpty

/-- Successful poll result (src/modules/upload.ts lines 216–222):
quickkey, optional filename, optional parsed size. -/
structure PollSuccess where
  quickKey : String
  filename : Option String
  size : Option Nat
deriving DecidableEq

/-- `response.doupload.size ? parseInt(response.doupload.size, 10) :
undefined`: absent or empty gives `undefined`; a digit string parses.
(`parseInt` returning `NaN` on a truthy non-numeral is also folded into
`none` here; the claims never exercise that corner.) -/
def jsSize (o : Option String) : Option Nat :=
  match o with
  | none => none
  | some s => if s = "" then none else parseIntDec s

/-- Outcome of inspecting one poll envelope. -/
inductive PollStep where
  | fail (msg : String)
  | done (r : PollSuccess)
  | again
deriving DecidableEq

/-- The body of one iteration of the poll loop (src/modules/upload.ts
lines 208–225), in source order: a truthy `fileerror` throws
`MediaFireError('Upload error: ' + fileerror)` first, regardless of
status; then `status === '99'` together with a truthy `quickkey` returns
the result record; anything else waits and polls again. -/
def pollStep (r : PollResponse) : PollStep :=
  let d := r.doupload
  if optTruthy (Option.bind d PollDoupload.fileerror) then
    PollStep.fail ("Upload error: " ++ (Option.bind d PollDoupload.fileerror).getD "")
  else if Option.bind d PollDoupload.status = some "99"
      ∧ optTruthy (Option.bind d PollDoupload.quickkey) = true then
    PollStep.done
      { quickKey := (Option.bind d PollDoupload.quickkey).getD ""
        filename := Option.bind d PollDoupload.filename
        size := jsSize (Option.bind d PollDoupload.size) }
  else
    PollStep.again

/-- The poll loop of `pollUpload` (src/modules/upload.ts lines 192–228):
`attempt` counts issued polls, the second argument is the remaining budget;
the stream `resp` gives the parsed envelope of each attempt (the 1-second
`setTimeout` between attempts is real time and does not affect the value).
Exhausting the budget throws `MediaFireError('Upload timed out')`. -/
def pollUploadLoop (resp : Nat → PollResponse) : Nat → Nat → Except MFError PollSuccess
  | _, 0 => Except.error ⟨"Upload timed out", none⟩
  | attempt, remaining + 1 =>
    match pollStep (resp attempt) with
    | PollStep.fail msg => Except.error ⟨msg, none⟩
    | PollStep.done r => Except.ok r
    | PollStep.again => pollUploadLoop resp (attempt + 1) remaining

/-- Embedding of `pollUpload` (src/modules/upload.ts line 186): loop from
attempt 0 with the given budget; the source's default is
`maxAttempts = 30`. -/
def pollUpload (resp : Nat → PollResponse) (maxAttempts : Nat) :
    Except MFError PollSuccess :=
  pollUploadLoop resp 0 maxAttempts

theorem pollUploadLoop_succ (resp : Nat → PollResponse) (a rem : Nat) :
    pollUploadLoop resp a (rem + 1)
      = match pollStep (resp a) with
        | PollStep.fail msg => Except.error ⟨msg, none⟩
        | PollStep.done r => Except.ok r
        | PollStep.again => pollUploadLoop resp (a + 1) rem := rfl

theorem pollStep_fail_of_fileerror (r : PollResponse)
    (h : optTruthy (Option.bind r.doupload PollDoupload.fileerror) = true) :
    pollStep r
      = PollStep.fail ("Upload error: "
          ++ (Option.bind r.doupload PollDoupload.fileerror).getD "") := by
  simp [pollStep, h]

theorem pollStep_done_of_complete (r : PollResponse) (qk : String)
    (hfe : optTruthy (Option.bind r.doupload PollDoupload.fileerror) = false)
    (hst : Option.bind r.doupload PollDoupload.status = some "99")
    (hqk : Option.bind r.doupload PollDoupload.quickkey = some qk)
    (hqt : optTruthy (Option.bind r.doupload PollDoupload.quickkey) = true) :
    pollStep r
      = PollStep.done { quickKey := qk
                        filename := Option.bind r.doupload PollDoupload.filename
                        size := jsSize (Option.bind r.doupload PollDoupload.size) } := by
  simp [pollStep, hfe, hst, hqk, hqt]
  rw [hqk] at hqt
  exact hqt

theorem pollStep_again_of_not_terminal (r : PollResponse)
    (hfe : optTruthy (Option.bind r.doupload PollDoupload.fileerror) = false)
    (h : ¬(Option.bind r.doupload PollDoupload.status = some "99"
        ∧ optTruthy (Option.bind r.doupload PollDoupload.quickkey) = true)) :
    pollStep r = PollStep.again := by
  simp only [pollStep, hfe, Bool.false_eq_true, if_false]
  rw [if_neg h]

theorem pollUploadLoop_skip (resp : Nat → PollResponse) :
    ∀ (k a rem : Nat), (∀ j, j < k → pollStep (resp (a + j)) = PollStep.again) →
      pollUploadLoop resp a (k + rem) = pollUploadLoop resp (a + k) rem := by
  intro k
  induction k with
  | zero =>
    intro a rem _
    simp [Nat.zero_add, Nat.add_zero]
  | succ k ih =>
    intro a rem h
    have h0 : pollStep (resp a) = PollStep.again := by
      have := h 0 (Nat.succ_pos k)
      simpa using this
    have hk : k + 1 + rem = (k + rem) + 1 := by omega
    rw [hk, pollUploadLoop_succ, h0]
    show pollUploadLoop resp (a + 1) (k + rem) = pollUploadLoop resp (a + (k + 1)) rem
    have hshift : ∀ j, j < k → pollStep (resp (a + 1 + j)) = PollStep.again := by
      intro j hj
      have := h (j + 1) (by omega)
      rw [show a + 1 + j = a + (j + 1) by omega]
      exact this
    rw [ih (a + 1) rem hshift, show a + 1 + k = a + (k + 1) by omega]

theorem pollUpload_timeout_of_all_again (resp : Nat → PollResponse) (maxAttempts : Nat)
    (h : ∀ j, j < maxAttempts → pollStep (resp j) = PollStep.again) :
    pollUpload resp maxAttempts = Except.error ⟨"Upload timed out", none⟩ := by
  have hskip := pollUploadLoop_skip resp maxAttempts 0 0
    (by intro j hj; simpa using h j hj)
  simp only [Nat.add_zero] at hskip
  rw [pollUpload, hskip]
  rfl

theorem pollUpload_reaches_attempt (resp : Nat → PollResponse) (m i : Nat)
    (hi : i < m) (hall : ∀ j, j < i → pollStep (resp j) = PollStep.again) :
    pollUpload resp m
      = match pollStep (resp i) with
        | PollStep.fail msg => Except.error ⟨msg, none⟩
        | PollStep.done r => Except.ok r
        | PollStep.again => pollUploadLoop resp (i + 1) (m - i - 1) := by
  have hm : m = i + ((m - i - 1) + 1) := by omega
  rw [pollUpload, hm,
    pollUploadLoop_skip resp i 0 ((m - i - 1) + 1) (by intro j hj; simpa using hall j hj),
    Nat.zero_add, pollUploadLoop_succ,
    show i + (m - i - 1 + 1) - i - 1 = m - i - 1 by omega]

/-- C8: whatever the status field says, the first poll attempt whose
response carries a truthy (non-empty) `fileerror` makes `pollUpload` throw
`MediaFireError('Upload error: ...')` on that very attempt; a budget of
`i + 1` attempts already yields the same error, so no further polls were
needed. -/
theorem poll_fileerror_immediately_fatal :
    ∀ (resp : Nat → PollResponse) (maxAttempts i : Nat), i < maxAttempts →
      (∀ j, j < i → pollStep (resp j) = PollStep.again) →
      optTruthy (Option.bind (resp i).doupload PollDoupload.fileerror) = true →
      (pollUpload resp maxAttempts
          = Except.error ⟨"Upload error: "
              ++ (Option.bind (resp i).doupload PollDoupload.fileerror).getD "", none⟩
        ∧ pollUpload resp (i + 1)
          = Except.error ⟨"Upload error: "
              ++ (Option.bind (resp i).doupload PollDoupload.fileerror).getD "", none⟩) := by
  intro resp maxAttempts i hi hall hfe
  have key : ∀ m, i < m → pollUpload resp m
      = Except.error ⟨"Upload error: "
          ++ (Option.bind (resp i).doupload PollDoupload.fileerror).getD "", none⟩ := by
    intro m hm
    rw [pollUpload_reaches_attempt resp m i hm hall, pollStep_fail_of_fileerror _ hfe]
  exact ⟨key maxAttempts hi, key (i + 1) (by omega)⟩

/-- Concrete poll envelopes for the witnesses: a non-terminal in-progress
response, a terminal complete response, a response with a populated
`fileerror` (and a "complete" status code, to exercise "regardless of
status"), and a "complete" response missing its quickkey. -/
def pollWorking : PollResponse :=
  ⟨some ⟨some "Success", some "17", none, none, none, none⟩⟩

/-- Terminal poll envelope: status 99 with quickkey, filename and size. -/
def pollDone : PollResponse :=
  ⟨some ⟨some "Success", some "99", some "abc123key", some "hello.txt", some "11", none⟩⟩

/-- Poll envelope carrying `fileerror = "14"` under status 99. -/
def pollErr : PollResponse :=
  ⟨some ⟨some "Success", some "99", none, none, none, some "14"⟩⟩

/-- Poll envelope with status 99 but no quickkey. -/
def pollStuck : PollResponse :=
  ⟨some ⟨some "Success", some "99", none, none, none, none⟩⟩

/-- Stream for the C8 witness: two healthy attempts, then a file error. -/
def pollRespFail (n : Nat) : PollResponse :=
  if n = 2 then pollErr else pollWorking

/-- Stream for the C9 witness: two non-terminal attempts, then terminal. -/
def pollRespDone (n : Nat) : PollResponse :=
  if n = 2 then pollDone else pollWorking

/-- Stream that never terminates, for the timeout witnesses. -/
def pollRespWorking (_ : Nat) : PollResponse :=
  pollWorking

/-- Stream of identifier-less "complete" responses, for the C10 witness. -/
def pollRespStuck (_ : Nat) : PollResponse :=
  pollStuck

/-- Witness for C8 at attempt 2 of a 30-attempt budget. -/
theorem poll_fileerror_immediately_fatal_witness :
    pollUpload pollRespFail 30 = Except.error ⟨"Upload error: 14", none⟩
    ∧ pollUpload pollRespFail (2 + 1) = Except.error ⟨"Upload error: 14", none⟩ := by
  have h := poll_fileerror_immediately_fatal pollRespFail 30 2 (by omega)
    (by decide) (by decide)
  constructor
  · rw [h.1]; decide
  · rw [h.2]; decide

/-- C9: `pollUpload` (budget defaulting to 30 in the source) returns
successfully on the first attempt whose response pairs status "99" with a
truthy quickkey, yielding that quickkey plus the server-reported filename
and parsed size; the result is already produced with budget `i + 1`, so the
remaining attempts are not consumed; and a stream that stays non-terminal
for all `maxAttempts` attempts ends in `MediaFireError('Upload timed
out')`. -/
theorem poll_first_terminal_succeeds_else_timeout :
    (∀ (resp : Nat → PollResponse) (maxAttempts i : Nat) (qk : String),
      i < maxAttempts →
      (∀ j, j < i → pollStep (resp j) = PollStep.again) →
      optTruthy (Option.bind (resp i).doupload PollDoupload.fileerror) = false →
      Option.bind (resp i).doupload PollDoupload.status = some "99" →
      Option.bind (resp i).doupload PollDoupload.quickkey = some qk →
      optTruthy (Option.bind (resp i).doupload PollDoupload.quickkey) = true →
      (pollUpload resp maxAttempts
          = Except.ok ⟨qk, Option.bind (resp i).doupload PollDoupload.filename,
              jsSize (Option.bind (resp i).doupload PollDoupload.size)⟩
        ∧ pollUpload resp (i + 1) = pollUpload resp maxAttempts))
    ∧ (∀ (resp : Nat → PollResponse) (maxAttempts : Nat),
        (∀ j, j < maxAttempts → pollStep (resp j) = PollStep.again) →
        pollUpload resp maxAttempts = Except.error ⟨"Upload timed out", none⟩) := by
  constructor
  · intro resp maxAttempts i qk hi hall hfe hst hqk hqt
    have key : ∀ m, i < m → pollUpload resp m
        = Except.ok ⟨qk, Option.bind (resp i).doupload PollDoupload.filename,
            jsSize (Option.bind (resp i).doupload PollDoupload.size)⟩ := by
      intro m hm
      rw [pollUpload_reaches_attempt resp m i hm hall,
        pollStep_done_of_complete _ qk hfe hst hqk hqt]
    exact ⟨key maxAttempts hi, (key (i + 1) (by omega)).trans (key maxAttempts hi).symm⟩
  · exact pollUpload_timeout_of_all_again

/-- Witness for C9: non-terminal, non-terminal, terminal succeeds on the
third attempt of the default 30 budget; an always-non-terminal stream times
out after 30. -/
theorem poll_first_terminal_succeeds_else_timeout_witness :
    pollUpload pollRespDone 30 = Except.ok ⟨"abc123key", some "hello.txt", some 11⟩
    ∧ pollUpload pollRespDone (2 + 1) = pollUpload pollRespDone 30
    ∧ pollUpload pollRespWorking 30 = Except.error ⟨"Upload timed out", none⟩ := by
  have h := poll_first_terminal_succeeds_else_timeout.1 pollRespDone 30 2 "abc123key"
    (by omega) (by decide) (by decide) (by decide) (by decide) (by decide)
  have ht := poll_first_terminal_succeeds_else_timeout.2 pollRespWorking 30 (by decide)
  refine ⟨?_, h.2, ht⟩
  rw [h.1]
  decide

/-- C10: a poll response whose status is "99" but whose quickkey is absent
or empty is handled as non-terminal — the loop just polls again — and a
stream of such identifier-less "complete" responses for all 30 attempts
ends in `MediaFireError('Upload timed out')`, never in a success carrying a
missing identifier. -/
theorem poll_complete_without_identifier_continues :
    (∀ (resp : Nat → PollResponse) (a rem : Nat),
      optTruthy (Option.bind (resp a).doupload PollDoupload.fileerror) = false →
      Option.bind (resp a).doupload PollDoupload.status = some "99" →
      optTruthy (Option.bind (resp a).doupload PollDoupload.quickkey) = false →
      pollUploadLoop resp a (rem + 1) = pollUploadLoop resp (a + 1) rem)
    ∧ (∀ resp : Nat → PollResponse,
        (∀ j, j < 30 →
          (Option.bind (resp j).doupload PollDoupload.status = some "99"
            ∧ optTruthy (Option.bind (resp j).doupload PollDoupload.quickkey) = false
            ∧ optTruthy (Option.bind (resp j).doupload PollDoupload.fileerror) = false)) →
        pollUpload resp 30 = Except.error ⟨"Upload timed out", none⟩) := by
  have hagain : ∀ (r : PollResponse),
      optTruthy (Option.bind r.doupload PollDoupload.fileerror) = false →
      optTruthy (Option.bind r.doupload PollDoupload.quickkey) = false →
      pollStep r = PollStep.again := by
    intro r hfe hqk
    refine pollStep_again_of_not_terminal r hfe ?_
    intro hc
    rw [hqk] at hc
    exact absurd hc.2 (by simp)
  constructor
  · intro resp a rem hfe hst hqk
    rw [pollUploadLoop_succ, hagain (resp a) hfe hqk]
  · intro resp hall
    exact pollUpload_timeout_of_all_again resp 30
      (fun j hj => hagain (resp j) (hall j hj).2.2 (hall j hj).2.1)

/-- Witness for C10: one identifier-less "complete" response just
continues; thirty of them time out. -/
theorem poll_complete_without_identifier_continues_witness :
    pollUploadLoop pollRespStuck 0 (5 + 1) = pollUploadLoop pollRespStuck (0 + 1) 5
    ∧ pollUpload pollRespStuck 30 = Except.error ⟨"Upload timed out", none⟩ :=
  ⟨poll_complete_without_identifier_continues.1 pollRespStuck 0 5
      (by decide) (by decide) (by decide),
    poll_complete_without_identifier_continues.2 pollRespStuck (by decide)⟩
